import Mathlib

/-!
Shallow embedding of the rvai tutorial notebooks and verification of the
specification claims about them.

The notebooks define a handful of Cell subclasses whose class-level
`call` methods are pure functions of their parameters and inputs (plus,
for the stateful cell, an explicit state record).  The SDK wrapper types
`Float` and `Integer` are modelled as `Rat` and `Int`; the wrapper
constructors are identities, so they disappear in the embedding.
-/

set_option autoImplicit false

namespace GettingStarted

/-- Inputs record of the SummatorCell: two floating point operands. -/
structure SummatorInputs where
  op_1 : Rat
  op_2 : Rat
deriving DecidableEq, Repr

/-- Outputs record of the SummatorCell: the (thresholded) sum. -/
structure SummatorOutputs where
  sum : Rat
deriving DecidableEq, Repr

/-- Parameters record of the SummatorCell: a threshold, default 100.0. -/
structure SummatorParameters where
  threshold : Rat
deriving DecidableEq, Repr

/-- Default SummatorParameters value: threshold = Float(100.0). -/
def SummatorParameters.default : SummatorParameters := ⟨100⟩

/-- Embedding of SummatorCell.call from the getting-started notebook:
returns SummatorOutputs with sum = Float(min(op_1 + op_2, threshold)). -/
def SummatorCell.call (parameters : SummatorParameters)
    (inputs : SummatorInputs) : SummatorOutputs :=
  ⟨min (inputs.op_1 + inputs.op_2) parameters.threshold⟩

/-- Embedding of SummatorCell.process_parameters: returns the parameters
unchanged. -/
def SummatorCell.process_parameters (parameters : SummatorParameters) :
    SummatorParameters :=
  parameters

/-- Inputs record of the MultiplierCell: two floating point operands. -/
structure MultiplierInputs where
  op_1 : Rat
  op_2 : Rat
deriving DecidableEq, Repr

/-- Outputs record of the MultiplierCell: the product. -/
structure MultiplierOutputs where
  product : Rat
deriving DecidableEq, Repr

/-- Embedding of MultiplierCell.call: product = Float(op_1 * op_2).
MultiplierParameters is an empty record, so it is omitted. -/
def MultiplierCell.call (inputs : MultiplierInputs) : MultiplierOutputs :=
  ⟨inputs.op_1 * inputs.op_2⟩

end GettingStarted

namespace RayRuntime

/-- Model of the rvai Image wrapper over a numpy array: a map from
(row, column, channel) indices to floating-point pixel values. -/
def ImageData : Type := Nat → Nat → Nat → Rat

/-- Inputs record of the BenchmarkCell: an image and a counter. -/
structure BenchmarkInputs where
  image_in : ImageData
  counter_in : Int

/-- Outputs record of the BenchmarkCell: an image and a counter. -/
structure BenchmarkOutputs where
  image_out : ImageData
  counter_out : Int

/-- Parameters record of the BenchmarkCell: a processing delay in
seconds, default 0.1.  The delay only controls a sleep in the source and
has no effect on the produced values. -/
structure BenchmarkParameters where
  delay : Rat

/-- Embedding of `outimage = inputs.image_in.copy();
outimage[0, 0, :] = outimage[0, 0, :] / 2`: every channel value at pixel
(0, 0) is halved, all other pixels are copied unchanged. -/
def halvePixel00 (img : ImageData) : ImageData :=
  fun i j c => if i = 0 ∧ j = 0 then img i j c / 2 else img i j c

/-- Embedding of BenchmarkCell.call from the ray-runtime notebook: after
a sleep of parameters.delay seconds it returns the input image with
pixel (0, 0) halved and counter_out = Integer(int(counter_in) + 1). -/
def BenchmarkCell.call (_parameters : BenchmarkParameters)
    (inputs : BenchmarkInputs) : BenchmarkOutputs :=
  ⟨halvePixel00 inputs.image_in, inputs.counter_in + 1⟩

/-- Parameter assignment for the four cells a, b, c, d of a benchmarking
pipeline (the benchmark function gives each cell its own delay). -/
structure BenchmarkPipelineParams where
  pa : BenchmarkParameters
  pb : BenchmarkParameters
  pc : BenchmarkParameters
  pd : BenchmarkParameters

/-- Embedding of the SingleInputPipeline data flow: the pipeline input
image feeds every cell, the counter enters cell a and is chained
a → b → c → d by the declared connections; the only pipeline output is
the counter_out of cell d. -/
def SingleInputPipeline.run (ps : BenchmarkPipelineParams)
    (image : ImageData) (counter : Int) : Int :=
  let oa := BenchmarkCell.call ps.pa ⟨image, counter⟩
  let ob := BenchmarkCell.call ps.pb ⟨image, oa.counter_out⟩
  let oc := BenchmarkCell.call ps.pc ⟨image, ob.counter_out⟩
  let od := BenchmarkCell.call ps.pd ⟨image, oc.counter_out⟩
  od.counter_out

/-- Embedding of the ChainedPipeline data flow: the pipeline input image
and counter enter cell a, and both image and counter are chained
a → b → c → d by the declared connections; the only pipeline output is
the counter_out of cell d. -/
def ChainedPipeline.run (ps : BenchmarkPipelineParams)
    (image : ImageData) (counter : Int) : Int :=
  let oa := BenchmarkCell.call ps.pa ⟨image, counter⟩
  let ob := BenchmarkCell.call ps.pb ⟨oa.image_out, oa.counter_out⟩
  let oc := BenchmarkCell.call ps.pc ⟨ob.image_out, ob.counter_out⟩
  let od := BenchmarkCell.call ps.pd ⟨oc.image_out, oc.counter_out⟩
  od.counter_out

/-- The references of the four cells declared in
BenchmarkingPipelineCells. -/
inductive CellRef where
  | a
  | b
  | c
  | d
deriving DecidableEq, Repr

/-- Port names appearing in the benchmarking pipeline connections. -/
inductive Port where
  | image_in
  | image_out
  | counter_in
  | counter_out
deriving DecidableEq, Repr

/-- A connection entry (source cell, source port, target cell, target
port) as written in a declarative pipeline `connections` list. -/
structure Connection where
  srcCell : CellRef
  srcPort : Port
  dstCell : CellRef
  dstPort : Port
deriving DecidableEq, Repr

/-- The connections list of SingleInputPipeline, transcribed from the
ray-runtime notebook. -/
def SingleInputPipeline.connections : List Connection :=
  [⟨.a, .counter_out, .b, .counter_in⟩,
   ⟨.b, .counter_out, .c, .counter_in⟩,
   ⟨.c, .counter_out, .d, .counter_in⟩]

/-- The connections list of ChainedPipeline, transcribed from the
ray-runtime notebook. -/
def ChainedPipeline.connections : List Connection :=
  [⟨.a, .counter_out, .b, .counter_in⟩,
   ⟨.a, .image_out, .b, .image_in⟩,
   ⟨.b, .counter_out, .c, .counter_in⟩,
   ⟨.b, .image_out, .c, .image_in⟩,
   ⟨.c, .counter_out, .d, .counter_in⟩,
   ⟨.c, .image_out, .d, .image_in⟩]

/-- Every cell reference of BenchmarkingPipelineCells is bound to the
class BenchmarkCell, which is defined in the ray-runtime notebook
itself; this predicate records that the referenced cell class is
repository-defined. -/
def cellDefinedInNotebooks : CellRef → Bool
  | .a => true
  | .b => true
  | .c => true
  | .d => true

/-- The MyPipeline of the getting-started notebook declares only
pipeline-level inputs and outputs for its sum and mult cells; its
declarative class has no `connections` field and the imperative variant
makes no cell-to-cell connection, so its inter-cell connection list is
empty. -/
def myPipelineConnections : List Connection := []

end RayRuntime

namespace Drivers

/-- Inputs record of MyCell in the pipeline-drivers notebook. -/
structure MyInputs where
  integer : Int
deriving DecidableEq, Repr

/-- Outputs record of MyCell: the incremented integer and the
prediction counter. -/
structure MyOutputs where
  integer : Int
  counter : Int
deriving DecidableEq, Repr

/-- Parameters record of MyCell: an adder with default Integer(1). -/
structure MyParameters where
  adder : Int
deriving DecidableEq, Repr

/-- Default MyParameters value: adder = Integer(1). -/
def MyParameters.default : MyParameters := ⟨1⟩

/-- State record of MyCell: a counter with default Integer(0). -/
structure MyState where
  counter : Int
deriving DecidableEq, Repr

/-- Default MyState value: counter = Integer(0). -/
def MyState.default : MyState := ⟨0⟩

/-- Embedding of MyCell.call from the pipeline-drivers notebook.  The
source mutates context.state in place; the embedding passes the state
explicitly and returns the updated state next to the outputs:
state.counter = Integer(state.counter + 1), then the outputs are
integer = Integer(inputs.integer + parameters.adder) and
counter = state.counter (the already-updated value). -/
def MyCell.call (state : MyState) (parameters : MyParameters)
    (inputs : MyInputs) : MyState × MyOutputs :=
  let state2 : MyState := ⟨state.counter + 1⟩
  (state2, ⟨inputs.integer + parameters.adder, state2.counter⟩)

/-- State of MyCell after n successive calls starting from the default
state, where seq gives the inputs of each call (the outputs of earlier
calls do not feed later states, so the inputs sequence is arbitrary). -/
def MyCell.stateAfter (parameters : MyParameters) (seq : Nat → MyInputs) :
    Nat → MyState
  | 0 => MyState.default
  | n + 1 => (MyCell.call (MyCell.stateAfter parameters seq n) parameters
      (seq n)).1

/-- Outputs returned by call number n + 1 (0-indexed call n) in the
run described by MyCell.stateAfter. -/
def MyCell.outputAt (parameters : MyParameters) (seq : Nat → MyInputs)
    (n : Nat) : MyOutputs :=
  (MyCell.call (MyCell.stateAfter parameters seq n) parameters (seq n)).2

/-- Parameters record of the CustomDriver: a single integer parameter
with default Integer(0). -/
structure CustomDriverParameters where
  param : Int
deriving DecidableEq, Repr

/-- The mutable attributes of a CustomDriver instance. -/
structure CustomDriver where
  predictions : Int
  params : CustomDriverParameters
  running : Bool
deriving DecidableEq, Repr

/-- Embedding of CustomDriver.__init__: predictions defaults to 10,
params to CustomDriverParameters() (param = Integer(0)) when None is
passed, and _running starts False. -/
def CustomDriver.init (predictions : Int)
    (params : Option CustomDriverParameters) : CustomDriver :=
  ⟨predictions, params.getD ⟨0⟩, false⟩

/-- Embedding of CustomDriver.set_parameters: stores the given
parameters on the driver. -/
def CustomDriver.set_parameters (d : CustomDriver)
    (parameters : CustomDriverParameters) : CustomDriver :=
  { d with params := parameters }

/-- Embedding of CustomDriver.get_parameters: returns the stored
parameters. -/
def CustomDriver.get_parameters (d : CustomDriver) :
    CustomDriverParameters :=
  d.params

/-- Embedding of CustomDriver.stop: clears the running flag so the
prediction loop in run terminates early. -/
def CustomDriver.stop (d : CustomDriver) : CustomDriver :=
  { d with running := false }

end Drivers

namespace Flows

/-- Model of an rvai Image value; its contents are irrelevant to the
dataset claims, only its identity matters. -/
structure ImageData where
  pixels : Nat → Nat → Nat → Rat

/-- An rvai Point with float coordinates. -/
structure Point where
  x : Rat
  y : Rat
deriving DecidableEq, Repr

/-- An rvai BoundingBox given by two corner points. -/
structure BoundingBox where
  p1 : Point
  p2 : Point
deriving DecidableEq, Repr

/-- The samples record of the dummy pipeline: an image. -/
structure DummySamples where
  image : ImageData

/-- The targets record of the dummy pipeline: a bounding box. -/
structure DummyTargets where
  bbox : BoundingBox

/-- The attributes of a DummyDataset instance: the two lists built by
its constructor. -/
structure DummyDataset where
  images : List ImageData
  bounding_boxes : List BoundingBox

/-- Embedding of DummyDataset.__init__(length): images is a list of
length random images (the numpy randomness is injected as the stream
rand), and bounding_boxes is a list of length copies of
BoundingBox(p1 = Point(0, 0), p2 = Point(1, 1)). -/
def DummyDataset.init (rand : Nat → ImageData) (length : Nat) :
    DummyDataset :=
  ⟨(List.range length).map rand,
   (List.range length).map fun _ => ⟨⟨0, 0⟩, ⟨1, 1⟩⟩⟩

/-- Embedding of DummyDataset.__getitem__(index): pairs the image and
bounding box at the index; an out-of-range index raises IndexError in
python, modelled as none. -/
def DummyDataset.getitem (d : DummyDataset) (index : Nat) :
    Option (DummySamples × DummyTargets) :=
  match d.images.get? index, d.bounding_boxes.get? index with
  | some img, some bb => some (⟨img⟩, ⟨bb⟩)
  | _, _ => none

/-- Embedding of DummyDataset.__len__: the length of the images list. -/
def DummyDataset.len (d : DummyDataset) : Nat :=
  d.images.length

end Flows

namespace Notebooks

/-- The two SDK error classes named in the pipeline-drivers notebook. -/
inductive ExcName where
  | driverNotFoundError
  | fastAPIClientError
deriving DecidableEq, Repr

/-- How an exception class name can occur in python code: as an imported
name, as the class of an except clause, as the argument of a raise
statement, or as a constructor call building an instance. -/
inductive ExcUse where
  | importedName
  | catchTarget
  | raiseStatement
  | constructorCall
deriving DecidableEq, Repr

/-- One occurrence of an exception class name in the repository. -/
structure ExcOccurrence where
  name : ExcName
  use : ExcUse
deriving DecidableEq, Repr

/-- Every occurrence of DriverNotFoundError and FastAPIClientError in
the repository source, in file order: FastAPIClientError is imported
from rvai.extensions.drivers.fast_api_driver and caught in two except
clauses, DriverNotFoundError is imported from rvai.base.exc and caught
in one except clause; no other occurrence exists. -/
def errorOccurrences : List ExcOccurrence :=
  [⟨.fastAPIClientError, .importedName⟩,
   ⟨.driverNotFoundError, .importedName⟩,
   ⟨.driverNotFoundError, .catchTarget⟩,
   ⟨.fastAPIClientError, .catchTarget⟩,
   ⟨.fastAPIClientError, .catchTarget⟩]

/-- The runtime-selector literal passed to every rvai.base.runtime.init
call in the notebooks, in file order: the getting-started notebook
passes ray; the trtis notebook passes debug; the ray-runtime notebook
passes debug, ray, ray; the measurements notebook passes debug (next to
a hooks keyword argument); the flows notebook passes ray; the
pipeline-drivers notebook passes debug. -/
def runtimeInitArgs : List String :=
  ["ray", "debug", "debug", "ray", "ray", "debug", "ray", "debug"]

/-- One InferenceProcess.add_driver call: the receiving process
variable and the driver reference string passed. -/
structure AddDriverCall where
  process : String
  ref : String
deriving DecidableEq, Repr

/-- Every add_driver call in the notebooks, in file order; all four
occur in the pipeline-drivers notebook on the single inference process
bound to the variable proc. -/
def addDriverCalls : List AddDriverCall :=
  [⟨"proc", "webapi"⟩,
   ⟨"proc", "webapi"⟩,
   ⟨"proc", "dummy-stream"⟩,
   ⟨"proc", "custom"⟩]

end Notebooks

/-- Concrete dummy image used to evaluate the benchmarking pipelines at
a closed input. -/
def testImage : RayRuntime.ImageData := fun _ _ _ => 1

/-- Concrete dummy image used to evaluate DummyDataset at a closed
input. -/
def constImage : Flows.ImageData := ⟨fun _ _ _ => 0⟩

/-- C1 counterexample: SummatorCell.call does perform a repository-defined
computation of its own.  On operands 2 and 3 with the default threshold
100 it returns the freshly computed value 5, which is none of its inputs
and not the parameter either, so the call does more than mirror the SDK
API. -/
theorem summator_call_computes_fresh_value :
    (GettingStarted.SummatorCell.call ⟨100⟩ ⟨2, 3⟩).sum = 5 ∧
    (5 : Rat) ≠ 2 ∧ (5 : Rat) ≠ 3 ∧ (5 : Rat) ≠ 100 := by
  refine ⟨?_, by norm_num, by norm_num, by norm_num⟩
  show min ((2 : Rat) + 3) 100 = 5
  norm_num

/-- C1 amended: the cell classes do mirror the SDK API shape, but their
call methods implement small repository-defined computations: the
SummatorCell computes the threshold-clamped sum of its operands, the
MultiplierCell computes their product, and the BenchmarkCell increments
its counter input; the SummatorCell moreover produces a value distinct
from all of its inputs and parameters. -/
theorem notebook_cells_implement_own_arithmetic :
    (∀ p i, (GettingStarted.SummatorCell.call p i).sum =
      min (i.op_1 + i.op_2) p.threshold) ∧
    (∀ i, (GettingStarted.MultiplierCell.call i).product =
      i.op_1 * i.op_2) ∧
    (∀ p i, (RayRuntime.BenchmarkCell.call p i).counter_out =
      i.counter_in + 1) ∧
    (∃ p i, (GettingStarted.SummatorCell.call p i).sum ≠ i.op_1 ∧
      (GettingStarted.SummatorCell.call p i).sum ≠ i.op_2 ∧
      (GettingStarted.SummatorCell.call p i).sum ≠ p.threshold) := by
  refine ⟨fun p i => rfl, fun i => rfl, fun p i => rfl,
    ⟨⟨100⟩, ⟨2, 3⟩, ?_, ?_, ?_⟩⟩ <;>
    · show min ((2 : Rat) + 3) 100 ≠ _
      norm_num

/-- C2: SummatorCell.call returns sum = min(op_1 + op_2, threshold), so
the returned sum never exceeds the threshold parameter and equals the
plain sum whenever that sum is at most the threshold. -/
theorem summator_sum_thresholded (p : GettingStarted.SummatorParameters)
    (i : GettingStarted.SummatorInputs) :
    (GettingStarted.SummatorCell.call p i).sum =
      min (i.op_1 + i.op_2) p.threshold ∧
    (GettingStarted.SummatorCell.call p i).sum ≤ p.threshold ∧
    (i.op_1 + i.op_2 ≤ p.threshold →
      (GettingStarted.SummatorCell.call p i).sum = i.op_1 + i.op_2) := by
  refine ⟨rfl, min_le_right _ _, fun h => ?_⟩
  exact min_eq_left h

/-- C2 witness: at threshold 100 and operands 2 and 3 the premise
2 + 3 le 100 holds and the returned sum is exactly 2 + 3. -/
theorem summator_sum_thresholded_witness :
    (2 : Rat) + 3 ≤ 100 ∧
    (GettingStarted.SummatorCell.call ⟨100⟩ ⟨2, 3⟩).sum = 2 + 3 :=
  ⟨by norm_num,
   (summator_sum_thresholded ⟨100⟩ ⟨2, 3⟩).2.2 (by norm_num)⟩

/-- C3 counterexample: checkable statements about the behaviour of
repository-defined code do exist.  Two of them, provable by
computation: the SingleInputPipeline maps counter input 0 to counter
output 4 on a concrete image and concrete delays (exactly the relation
benchmark_task asserts), and SummatorCell.call maps operands 4 and 5
under threshold 100 to sum 9. -/
theorem checkable_statement_exists :
    RayRuntime.SingleInputPipeline.run
      ⟨⟨1/20⟩, ⟨1/10⟩, ⟨1/20⟩, ⟨1/20⟩⟩ testImage 0 = 4 ∧
    (GettingStarted.SummatorCell.call ⟨100⟩ ⟨4, 5⟩).sum = 9 := by
  constructor
  · rfl
  · show min ((4 : Rat) + 5) 100 = 9
    norm_num

/-- C3 amended: testable properties of intended behaviour can be derived
from this repository; in particular the benchmark code itself asserts
one, namely that both benchmarking pipelines map counter input 0 to
counter output 4 for every image and every delay parameters. -/
theorem benchmark_assert_is_derivable (ps : RayRuntime.BenchmarkPipelineParams)
    (img : RayRuntime.ImageData) :
    RayRuntime.SingleInputPipeline.run ps img 0 = 4 ∧
    RayRuntime.ChainedPipeline.run ps img 0 = 4 :=
  ⟨rfl, rfl⟩

/-- C4 counterexample: repository-defined record rules do exist.  On a
concrete DummyDataset of length 3 the constructor establishes the
length relation between the images and bounding_boxes lists and len
returns 3, and a concrete MyCell.call applies the counter update rule,
turning state counter 5 into 6. -/
theorem dataset_invariant_and_update_rule_exist :
    (Flows.DummyDataset.init (fun _ => constImage) 3).images.length =
      (Flows.DummyDataset.init (fun _ => constImage) 3).bounding_boxes.length ∧
    (Flows.DummyDataset.init (fun _ => constImage) 3).len = 3 ∧
    (Drivers.MyCell.call ⟨5⟩ ⟨1⟩ ⟨7⟩).1.counter = 6 :=
  ⟨rfl, rfl, rfl⟩

/-- C4 amended: the notebook records are subclasses of SDK base types,
but two of them do carry repository-defined rules: DummyDataset
maintains the invariant that its images and bounding_boxes lists both
have the constructor argument as length, with len reporting it and
getitem pairing the two lists positionwise, and the MyState counter is
incremented by MyCell.call on every invocation. -/
theorem dataset_invariant_and_state_update (rand : Nat → Flows.ImageData)
    (n : Nat) :
    (Flows.DummyDataset.init rand n).images.length = n ∧
    (Flows.DummyDataset.init rand n).bounding_boxes.length = n ∧
    (Flows.DummyDataset.init rand n).len = n ∧
    (∀ i : Nat, (Flows.DummyDataset.init rand n).getitem i =
      if i < n then some (⟨rand i⟩, ⟨⟨⟨0, 0⟩, ⟨1, 1⟩⟩⟩) else none) ∧
    (∀ (s : Drivers.MyState) (p : Drivers.MyParameters)
      (inp : Drivers.MyInputs),
      (Drivers.MyCell.call s p inp).1.counter = s.counter + 1) := by
  refine ⟨by simp [Flows.DummyDataset.init],
    by simp [Flows.DummyDataset.init],
    by simp [Flows.DummyDataset.init, Flows.DummyDataset.len],
    fun i => ?_, fun s p inp => rfl⟩
  by_cases h : i < n
  · simp [Flows.DummyDataset.init, Flows.DummyDataset.getitem,
      List.getElem?_map, List.getElem?_range h, h]
  · have h1 : (List.range n)[i]? = none := by
      rw [List.getElem?_eq_none]
      simpa using Nat.le_of_not_lt h
    simp [Flows.DummyDataset.init, Flows.DummyDataset.getitem, h1, h]

/-- C5 counterexample: an operation named by the claim does have a body
implemented in the supplied source.  CustomDriver.set_parameters is
implemented in the pipeline-drivers notebook, and its behaviour is
fully determined by that source: on a freshly constructed driver it
stores the given parameters, get_parameters returns them, stop clears
the running flag, and the constructor defaults param to 0. -/
theorem custom_driver_operations_implemented :
    ((Drivers.CustomDriver.init 10 none).set_parameters ⟨5⟩).get_parameters
      = ⟨5⟩ ∧
    ((Drivers.CustomDriver.init 10 none).stop).running = false ∧
    (Drivers.CustomDriver.init 10 none).params = ⟨0⟩ :=
  ⟨rfl, rfl, rfl⟩

/-- C5 amended: predict, start_inference, add_driver and the flow start
and updates methods are indeed calls into the external SDK, but not
every operation shown lacks a body in the supplied source: the
CustomDriver class implements set_parameters, get_parameters and stop
itself (and the notebook cells implement their call bodies). -/
theorem custom_driver_bodies_in_source (d : Drivers.CustomDriver)
    (p : Drivers.CustomDriverParameters) :
    (d.set_parameters p).params = p ∧
    d.get_parameters = d.params ∧
    (d.stop).running = false ∧
    (d.set_parameters p).predictions = d.predictions :=
  ⟨rfl, rfl, rfl, rfl⟩

/-- C6: every MyCell.call invocation increments the state counter by
one and returns integer = inputs.integer + parameters.adder together
with the updated counter; consequently after n calls from the default
state the counter is n, and the outputs of call number n + 1 carry
counter n + 1. -/
theorem mycell_counter_invariant (p : Drivers.MyParameters)
    (seq : Nat → Drivers.MyInputs) (n : Nat) :
    (∀ (s : Drivers.MyState) (inp : Drivers.MyInputs),
      (Drivers.MyCell.call s p inp).1.counter = s.counter + 1 ∧
      (Drivers.MyCell.call s p inp).2.integer = inp.integer + p.adder ∧
      (Drivers.MyCell.call s p inp).2.counter = s.counter + 1) ∧
    (Drivers.MyCell.stateAfter p seq n).counter = n ∧
    (Drivers.MyCell.outputAt p seq n).counter = n + 1 := by
  have hstate : ∀ m : Nat, (Drivers.MyCell.stateAfter p seq m).counter = m := by
    intro m
    induction m with
    | zero => rfl
    | succ k ih =>
      show (Drivers.MyCell.stateAfter p seq k).counter + 1 = ((k : Int) + 1)
      rw [ih]
  refine ⟨fun s inp => ⟨rfl, rfl, rfl⟩, hstate n, ?_⟩
  show (Drivers.MyCell.stateAfter p seq n).counter + 1 = ((n : Int) + 1)
  rw [hstate n]

/-- C7: every occurrence of DriverNotFoundError and FastAPIClientError
in the repository is an import or an except-clause catch target; no
occurrence raises or constructs either class, and both names do occur. -/
theorem error_classes_only_imported_or_caught :
    Notebooks.errorOccurrences.all
      (fun o => o.use == Notebooks.ExcUse.importedName ||
        o.use == Notebooks.ExcUse.catchTarget) = true ∧
    Notebooks.ExcName.driverNotFoundError ∈
      Notebooks.errorOccurrences.map (fun o => o.name) ∧
    Notebooks.ExcName.fastAPIClientError ∈
      Notebooks.errorOccurrences.map (fun o => o.name) := by
  decide

/-- C8 counterexample: the SingleInputPipeline connections list links
the counter_out of cell a to the counter_in of cell b, and both cells
are instances of the repository-defined BenchmarkCell, so an output of
one repository-defined cell is connected to an input of another. -/
theorem repo_cells_are_connected :
    (⟨RayRuntime.CellRef.a, RayRuntime.Port.counter_out,
      RayRuntime.CellRef.b, RayRuntime.Port.counter_in⟩ :
      RayRuntime.Connection) ∈ RayRuntime.SingleInputPipeline.connections ∧
    RayRuntime.cellDefinedInNotebooks RayRuntime.CellRef.a = true ∧
    RayRuntime.cellDefinedInNotebooks RayRuntime.CellRef.b = true := by
  decide

/-- C8 amended: the getting-started MyPipeline has no cell-to-cell
connection, but the two benchmarking pipelines do wire
repository-defined cells to each other: SingleInputPipeline declares 3
and ChainedPipeline 6 connections, every one of which links two
repository-defined BenchmarkCell instances. -/
theorem benchmark_pipelines_chain_repo_cells :
    RayRuntime.SingleInputPipeline.connections.length = 3 ∧
    RayRuntime.ChainedPipeline.connections.length = 6 ∧
    (RayRuntime.SingleInputPipeline.connections ++
      RayRuntime.ChainedPipeline.connections).all
      (fun conn => RayRuntime.cellDefinedInNotebooks conn.srcCell &&
        RayRuntime.cellDefinedInNotebooks conn.dstCell) = true ∧
    RayRuntime.myPipelineConnections = [] := by
  decide

/-- C9: on the counter output the two benchmarking pipelines agree: for
every delay parameters, every image and every counter input c, both
return c + 4, and in particular 4 for counter input 0, which is what
the benchmark code asserts. -/
theorem pipelines_counter_equivalent (ps : RayRuntime.BenchmarkPipelineParams)
    (img : RayRuntime.ImageData) (c : Int) :
    RayRuntime.SingleInputPipeline.run ps img c = c + 4 ∧
    RayRuntime.ChainedPipeline.run ps img c = c + 4 ∧
    RayRuntime.SingleInputPipeline.run ps img c =
      RayRuntime.ChainedPipeline.run ps img c ∧
    RayRuntime.SingleInputPipeline.run ps img 0 = 4 := by
  have h1 : RayRuntime.SingleInputPipeline.run ps img c = c + 4 := by
    show c + 1 + 1 + 1 + 1 = c + 4
    omega
  have h2 : RayRuntime.ChainedPipeline.run ps img c = c + 4 := by
    show c + 1 + 1 + 1 + 1 = c + 4
    omega
  exact ⟨h1, h2, h1.trans h2.symm, rfl⟩

/-- C10: every rvai runtime initialization in the notebooks passes one
of the two literals debug or ray as its runtime selector, both literals
are actually used, and more than one driver is added to the same
inference process (the drivers notebook adds webapi twice, dummy-stream
and custom to the process bound to proc). -/
theorem runtime_literals_and_shared_process :
    Notebooks.runtimeInitArgs.all
      (fun s => s == "debug" || s == "ray") = true ∧
    "debug" ∈ Notebooks.runtimeInitArgs ∧
    "ray" ∈ Notebooks.runtimeInitArgs ∧
    2 ≤ Notebooks.addDriverCalls.countP (fun c => c.process == "proc") := by
  decide
